import Mathlib

/-!
Verification of the Connectivity & Offline Job Synchronization Engine of the
Forge dashboard front-end.

The definitions below are a shallow embedding of the JavaScript source:

* `toggleMode`, `checkConnectivity` — the connectivity mode controller of
  `frontend/src/pages/Dashboard.jsx` (lines 47-50 and 170-233).
* `normalizeFile`, `rebuildFile`, `enqueueEncapsulationJob` — the durable
  offline queue of `frontend/src/lib/offlineQueue.js`.
* `processQueuedJob`, `syncOfflineQueue` — the queue synchronizer
  `syncOfflineQueue` of `Dashboard.jsx` (lines 67-103).  The store is modelled
  as the list of committed records; `store.delete(jobId)` is removal of every
  record carrying that id (IndexedDB `keyPath: id` keeps ids unique in the
  real store, which is why several theorems take a `Nodup` hypothesis).
  The network outcome of one direct submission is an oracle
  `submit : QueuedJobRecord → Bool`.
* `buildEncapsulationOptions`, `buildEncapsulationFormData` — the multipart
  body builder of `frontend/src/components/forge/forgeApi.jsx` (lines 25-51).
  JavaScript truthiness of `a || b` is embedded by `jsOrString` / `jsOrInt`
  (`undefined`, the empty string and `0` are falsy), and `x !== false` by
  `jsNotFalse`.
* `handleSubmit` — the job submission facade of `EnhancedJobCreator`
  (`src/unnamed/part_005`, lines 35-87).  Its effects are reified in the
  `SubmitOutcome` result: a `validationError` outcome is returned before any
  network call or enqueue happens in the source, so an outcome other than
  `queued`/`submitted` means neither the queue nor the backend was reached.
* `Socket`, `socketStep`, `subscribeToJob` — the per-job subscription layer of
  the event channel (`src/unnamed/part_007`, lines 97-123), over the standard
  event-emitter semantics of the socket.io client: `once('connect', f)` runs
  `f` on the first `connect` event only, and is not discarded by
  `disconnect`/`connect_error` events.  `Socket.emitted` records every
  `subscribe_job` emission in order; `Socket.handlers` records the registered
  `job_update` handlers.  The bool returned by `subscribeToJob` is true when a
  live registration was made — the returned unsubscribe closure is a no-op
  exactly when it is false.
* `SyncGuard`, `syncGuardStep` — the single-flight guard `isSyncingQueue` of
  `Dashboard.jsx` (lines 37 and 67-70): a trigger arriving while the flag is
  set returns immediately; otherwise it sets the flag, starts a pass, and the
  pass clears the flag in its `finally` block.  JavaScript is single-threaded
  and the flag write precedes the first `await` of a pass, so trigger and
  finish events form a sequential trace.
* `backoffDuration` — the reconnection delay. The delay itself is computed by
  the socket.io-client dependency (its bundled backo2 algorithm:
  `ms = min * factor^attempts`, jitter deviation `floor(rand * jitter * ms)`
  added or subtracted according to the parity of `floor(rand * 10)`, the
  result capped at `max`), with the parameters configured by the repository at
  `src/unnamed/part_007` lines 39-47: base delay 1000 ms, ceiling 10000 ms,
  jitter factor 0.4, factor 2, at most 10 attempts.  `onConnectError` models
  the manager's attempt accounting together with the handlers installed at
  lines 74-81: each failed attempt below the cap schedules another and sets
  the state to `reconnecting`; once the cap is exhausted `reconnect_failed`
  fires and the repository handler sets the state to `failed`, after which no
  further attempt is made.
-/

namespace Forge

/-- The two values of the `systemMode` React state in `Dashboard.jsx`. -/
inductive Mode where
  | online
  | offline
  deriving DecidableEq, Repr

/-- Flip between online and offline, as in the updater
`(mode) => (mode === 'online' ? 'offline' : 'online')`. -/
def Mode.flip : Mode → Mode
  | .online => .offline
  | .offline => .online

/-- The connectivity-relevant React state of the Dashboard component:
`systemMode`, `autoOffline` and `backendReachable`. -/
structure DashboardState where
  systemMode : Mode
  autoOffline : Bool
  backendReachable : Bool
  deriving DecidableEq, Repr

/-- `toggleMode` (Dashboard.jsx lines 47-50): setAutoOffline(false) and flip
the mode. -/
def toggleMode (s : DashboardState) : DashboardState :=
  { s with autoOffline := false, systemMode := s.systemMode.flip }

/-- The block repeated in `checkConnectivity` and `handleOffline`: mark the
backend unreachable, and if the mode is online force it offline with
`autoOffline := true`. -/
def markUnreachable (s : DashboardState) : DashboardState :=
  if s.systemMode = .online then
    { s with backendReachable := false, systemMode := .offline, autoOffline := true }
  else
    { s with backendReachable := false }

/-- One run of `checkConnectivity` (Dashboard.jsx lines 172-205), given the
value of `navigator.onLine` and whether the health probe returned an ok
response within its timeout. -/
def checkConnectivity (navigatorOnLine : Bool) (probeOk : Bool)
    (s : DashboardState) : DashboardState :=
  if !navigatorOnLine then
    markUnreachable s
  else if probeOk then
    if s.autoOffline then
      { s with backendReachable := true, systemMode := .online, autoOffline := false }
    else
      { s with backendReachable := true }
  else
    markUnreachable s

/-- The browser `offline` event handler (Dashboard.jsx lines 215-222). -/
def handleOffline (s : DashboardState) : DashboardState :=
  markUnreachable s

/-- A JavaScript `File`: name, MIME type and content bytes; `size` is the
byte length. -/
structure JsFile where
  name : String
  type : String
  bytes : List Nat
  deriving DecidableEq, Repr

/-- A stored payload, as produced by `normalizeFile` in `offlineQueue.js`:
name, MIME type, size and the raw blob. -/
structure StoredFile where
  name : String
  type : String
  size : Nat
  blob : List Nat
  deriving DecidableEq, Repr

/-- `normalizeFile` (offlineQueue.js lines 29-34). -/
def normalizeFile (file : JsFile) : StoredFile :=
  { name := file.name, type := file.type, size := file.bytes.length, blob := file.bytes }

/-- `rebuildFile` (offlineQueue.js lines 73-74): a new `File` from the stored
blob, name and type. -/
def rebuildFile (fileRecord : StoredFile) : JsFile :=
  { name := fileRecord.name, type := fileRecord.type, bytes := fileRecord.blob }

/-- The caller-supplied `options` object.  Every field is optional in
JavaScript; `none` models an absent (`undefined`) field. -/
structure SubmitOptions where
  compression_mode : Option String := none
  noise_level : Option Int := none
  encryption : Option String := none
  hashing : Option String := none
  passphrase : Option String := none
  key_iterations : Option Int := none
  polytope_type : Option String := none
  zstd_level : Option Int := none
  stego_layers : Option Int := none
  stego_dynamic : Option Bool := none
  stego_adaptive : Option Bool := none
  poly_backend : Option String := none
  deriving DecidableEq, Repr

/-- A committed `QueuedJobRecord` (offlineQueue.js lines 43-54).  `id` and
`createdAt` are generated at enqueue time and passed as parameters here. -/
structure QueuedJobRecord where
  id : String
  createdAt : String
  targetFiles : List StoredFile
  carrierImage : Option StoredFile
  options : SubmitOptions
  deriving DecidableEq, Repr

/-- `enqueueEncapsulationJob` (offlineQueue.js lines 43-54): normalize each
target file, normalize the carrier when present (`carrierImage ? ... : null`),
substitute `{}` for an absent options object (`options || {}`), and commit the
record. -/
def enqueueEncapsulationJob (id createdAt : String) (targetFiles : List JsFile)
    (carrierImage : Option JsFile) (options : Option SubmitOptions) : QueuedJobRecord :=
  { id := id
    createdAt := createdAt
    targetFiles := targetFiles.map normalizeFile
    carrierImage := carrierImage.map normalizeFile
    options := options.getD {} }

/-- JavaScript `value || fallback` for a string field: `undefined` and the
empty string are falsy. -/
def jsOrString (value : Option String) (fallback : String) : String :=
  match value with
  | some s => if s = "" then fallback else s
  | none => fallback

/-- JavaScript `value || fallback` for a number field: `undefined` and `0` are
falsy. -/
def jsOrInt (value : Option Int) (fallback : Int) : Int :=
  match value with
  | some n => if n = 0 then fallback else n
  | none => fallback

/-- JavaScript `value !== false` for an optional boolean field. -/
def jsNotFalse (value : Option Bool) : Bool :=
  match value with
  | some b => b
  | none => true

/-- The `options` JSON object sent to `/api/encapsulate`.  The `passphrase`
key is dropped from the JSON when `undefined`, hence `Option String`. -/
structure EncapsulationOptions where
  compression_mode : String
  noise_level : Int
  encryption : String
  hashing : String
  passphrase : Option String
  key_iterations : Int
  polytope_type : String
  zstd_level : Int
  stego_layers : Int
  stego_dynamic : Bool
  stego_adaptive : Bool
  poly_backend : String
  deriving DecidableEq, Repr

/-- The defaulting applied inside `buildEncapsulationFormData`
(forgeApi.jsx lines 32-48). -/
def buildEncapsulationOptions (options : SubmitOptions) : EncapsulationOptions :=
  { compression_mode := jsOrString options.compression_mode "high-ratio"
    noise_level := jsOrInt options.noise_level 30
    encryption := jsOrString options.encryption "aes-256-gcm"
    hashing := jsOrString options.hashing "sha-256"
    passphrase := options.passphrase
    key_iterations := jsOrInt options.key_iterations 100000
    polytope_type := jsOrString options.polytope_type "cube"
    zstd_level := jsOrInt options.zstd_level 22
    stego_layers := jsOrInt options.stego_layers 2
    stego_dynamic := jsNotFalse options.stego_dynamic
    stego_adaptive := jsNotFalse options.stego_adaptive
    poly_backend := jsOrString options.poly_backend "latte" }

/-- The multipart form data of `buildEncapsulationFormData`
(forgeApi.jsx lines 25-51): repeated `target_files` fields, one
`carrier_image` field, and the `options` JSON string. -/
structure EncapsulationFormData where
  target_files : List JsFile
  carrier_image : JsFile
  options : EncapsulationOptions
  deriving DecidableEq, Repr

/-- `buildEncapsulationFormData` (forgeApi.jsx lines 25-51). -/
def buildEncapsulationFormData (targetFiles : List JsFile) (carrierImage : JsFile)
    (options : SubmitOptions) : EncapsulationFormData :=
  { target_files := targetFiles
    carrier_image := carrierImage
    options := buildEncapsulationOptions options }

/-- The observable outcome of one `handleSubmit` call.  In the source a
validation failure shows a toast and returns before `setIsProcessing`, before
any network call and before any enqueue; the other two constructors carry what
was enqueued or what was posted to the backend. -/
inductive SubmitOutcome where
  | validationError (message : String)
  | queued (record : QueuedJobRecord)
  | submitted (formData : EncapsulationFormData)
  deriving DecidableEq, Repr

/-- True exactly on the `validationError` outcome. -/
def SubmitOutcome.isValidationError : SubmitOutcome → Bool
  | .validationError _ => true
  | _ => false

/-- `handleSubmit` of `EnhancedJobCreator` (src/unnamed/part_005 lines 35-87):
validate the target list, the carrier and the passphrase in that order, then
either enqueue (offline mode) or build the submission form data (online).
`options` stands for the object assembled from the component state; in the
source it carries the same passphrase that is validated. -/
def handleSubmit (id createdAt : String) (targetFiles : List JsFile)
    (carrierImage : Option JsFile) (passphrase : String) (options : SubmitOptions)
    (isOfflineMode : Bool) : SubmitOutcome :=
  if targetFiles.isEmpty then .validationError "Please select files to embed"
  else
    match carrierImage with
    | none => .validationError "Please select a carrier image"
    | some carrier =>
      if passphrase = "" then .validationError "Please enter a passphrase"
      else if isOfflineMode then
        .queued (enqueueEncapsulationJob id createdAt targetFiles (some carrier) (some options))
      else
        .submitted (buildEncapsulationFormData targetFiles carrier options)

/-- One iteration of the `for (const job of queuedJobs)` loop of
`syncOfflineQueue` (Dashboard.jsx lines 76-94) on the pair
(current store contents, synced count): a missing carrier throws before the
submission (caught, nothing changes); a failed submission is caught (nothing
changes); a successful submission removes the record by id and increments the
count. -/
def processQueuedJob (submit : QueuedJobRecord → Bool)
    (st : List QueuedJobRecord × Nat) (job : QueuedJobRecord) :
    List QueuedJobRecord × Nat :=
  match job.carrierImage with
  | none => st
  | some _ =>
    if submit job then (st.1.filter (fun r => r.id != job.id), st.2 + 1) else st

/-- One pass of `syncOfflineQueue` (Dashboard.jsx lines 67-103), starting from
the committed store `queue` (also the snapshot read by
`getQueuedEncapsulationJobs`).  Returns the final store contents and the
reported synced count. -/
def syncOfflineQueue (submit : QueuedJobRecord → Bool)
    (queue : List QueuedJobRecord) : List QueuedJobRecord × Nat :=
  if queue.isEmpty then (queue, 0)
  else queue.foldl (processQueuedJob submit) (queue, 0)

/-- The ids of the jobs of `jobs` that reach submission (carrier present) and
whose submission succeeds. -/
def syncedIds (submit : QueuedJobRecord → Bool)
    (jobs : List QueuedJobRecord) : List String :=
  (jobs.filter (fun j => j.carrierImage.isSome && submit j)).map (fun j => j.id)

/-- Transport lifecycle events of the socket.io client that are relevant to
the subscription layer. -/
inductive SockEvent where
  | connect
  | disconnect
  | connectError
  deriving DecidableEq, Repr

/-- The subscription-relevant state of the shared socket:
whether the transport is connected, the pending `once('connect', ...)`
subscribe-intent bindings in registration order, the registered `job_update`
handlers (by job id), and the `subscribe_job` emissions so far (by job id, in
order). -/
structure Socket where
  connected : Bool
  onceConnect : List String
  handlers : List String
  emitted : List String
  deriving DecidableEq, Repr

/-- The socket right after `io(...)` returns, before the first connect. -/
def initSocket : Socket :=
  { connected := false, onceConnect := [], handlers := [], emitted := [] }

/-- Event-emitter semantics of the socket.io client: a `connect` event fires
every pending `once('connect')` binding (each emits `subscribe_job` once) and
clears them; `disconnect` and `connect_error` leave all bindings in place. -/
def socketStep (s : Socket) : SockEvent → Socket
  | .connect =>
    { s with connected := true, emitted := s.emitted ++ s.onceConnect, onceConnect := [] }
  | .disconnect => { s with connected := false }
  | .connectError => s

/-- Run a sequence of transport events. -/
def runEvents (s : Socket) (events : List SockEvent) : Socket :=
  events.foldl socketStep s

/-- `subscribeToJob` (src/unnamed/part_007 lines 97-123).  With no socket or a
falsy job id it returns a no-op unsubscribe and registers nothing; otherwise
it registers the `job_update` handler and either emits `subscribe_job` at once
(connected) or defers it with `once('connect', ...)`.  The returned bool is
true when a live registration was made: the unsubscribe closure returned by
the source is a no-op exactly when it is false. -/
def subscribeToJob (socket : Option Socket) (jobId : Option String) :
    Option Socket × Bool :=
  match socket, jobId with
  | none, _ => (none, false)
  | some s, none => (some s, false)
  | some s, some j =>
    if j = "" then (some s, false)
    else if s.connected then
      (some { s with handlers := s.handlers ++ [j], emitted := s.emitted ++ [j] }, true)
    else
      (some { s with handlers := s.handlers ++ [j], onceConnect := s.onceConnect ++ [j] }, true)

/-- Count of `subscribe_job` emissions for `jobId` after running `events` on
an optional socket. -/
def countSubscribeEmissions (socket : Option Socket) (events : List SockEvent)
    (jobId : String) : Nat :=
  match socket with
  | none => 0
  | some s => (runEvents s events).emitted.count jobId

/-- Bookkeeping for the single-flight guard of the queue synchronizer:
the `isSyncingQueue` flag, the number of passes currently in flight, and the
number of passes ever started. -/
structure SyncGuard where
  isSyncingQueue : Bool
  activePasses : Nat
  startedPasses : Nat
  deriving DecidableEq, Repr

/-- Requests hitting the synchronizer: a sync trigger (mode-transition effect
or a manual request), or the in-flight pass reaching its `finally` block. -/
inductive SyncRequest where
  | trigger
  | finish
  deriving DecidableEq, Repr

/-- Initial guard state: flag clear, no pass in flight. -/
def initSyncGuard : SyncGuard :=
  { isSyncingQueue := false, activePasses := 0, startedPasses := 0 }

/-- `syncOfflineQueue`.s guard (Dashboard.jsx lines 67-70 and 99-102): a
trigger returns immediately when the flag is set; otherwise it sets the flag
and starts a pass.  The pass clears the flag when it finishes. -/
def syncGuardStep (s : SyncGuard) : SyncRequest → SyncGuard
  | .trigger =>
    if s.isSyncingQueue then s
    else
      { isSyncingQueue := true
        activePasses := s.activePasses + 1
        startedPasses := s.startedPasses + 1 }
  | .finish =>
    if s.isSyncingQueue then
      { s with isSyncingQueue := false, activePasses := s.activePasses - 1 }
    else s

/-- Run a sequence of requests from the initial guard state. -/
def runSyncRequests (events : List SyncRequest) : SyncGuard :=
  events.foldl syncGuardStep initSyncGuard

/-- reconnectionAttempts configured at src/unnamed/part_007 line 6. -/
def MAX_RECONNECT_ATTEMPTS : Nat := 10

/-- reconnectionDelay configured at src/unnamed/part_007 line 7. -/
def BASE_RECONNECT_DELAY_MS : ℚ := 1000

/-- reconnectionDelayMax configured at src/unnamed/part_007 line 8. -/
def MAX_RECONNECT_DELAY_MS : ℚ := 10000

/-- randomizationFactor configured at src/unnamed/part_007 line 9. -/
def RECONNECT_JITTER : ℚ := 2 / 5

/-- The delay before reconnection attempt `attempts + 1`, as computed by the
socket.io-client backoff (backo2) with the parameters configured by the
repository: `ms = 1000 * 2 ^ attempts`, a jitter deviation
`floor(rand * 0.4 * ms)` subtracted when `floor(rand * 10)` is even and added
when odd, and the result capped at 10000 ms.  `rand` is the draw of
`Math.random()`, a value in `[0, 1)`. -/
def backoffDuration (attempts : Nat) (rand : ℚ) : ℚ :=
  let ms : ℚ := BASE_RECONNECT_DELAY_MS * 2 ^ attempts
  let deviation : ℚ := (⌊rand * RECONNECT_JITTER * ms⌋ : ℤ)
  let jittered : ℚ := if (⌊rand * 10⌋ : ℤ) % 2 = 0 then ms - deviation else ms + deviation
  min jittered MAX_RECONNECT_DELAY_MS

/-- The jitter-free backoff delay before attempt `attempt + 1`. -/
def baseReconnectDelay (attempt : Nat) : ℚ :=
  min (BASE_RECONNECT_DELAY_MS * 2 ^ attempt) MAX_RECONNECT_DELAY_MS

/-- The ConnectionState values of the event channel
(src/unnamed/part_007). -/
inductive ConnectionState where
  | connecting
  | connected
  | disconnected
  | reconnecting
  | failed
  | error
  | missingToken
  deriving DecidableEq, Repr

/-- The reconnection-relevant channel state: the observable `connectionState`
and the backoff attempt counter of the socket.io manager. -/
structure ChannelState where
  connectionState : ConnectionState
  attempts : Nat
  deriving DecidableEq, Repr

/-- Channel state right after construction with a credential
(src/unnamed/part_007 lines 34-47). -/
def initChannel : ChannelState :=
  { connectionState := .connecting, attempts := 0 }

/-- A failed (re)connection attempt, combining the socket.io manager's
accounting with the handlers installed at src/unnamed/part_007 lines 74-81:
below the attempt cap another attempt is scheduled (`reconnect_attempt` sets
the state to `reconnecting`); at the cap `reconnect_failed` fires and the
repository handler sets the state to `failed`; the `failed` state is terminal
because the manager stops reconnecting. -/
def onConnectError (s : ChannelState) : ChannelState :=
  if s.connectionState = .failed then s
  else if MAX_RECONNECT_ATTEMPTS ≤ s.attempts then
    { connectionState := .failed, attempts := s.attempts }
  else
    { connectionState := .reconnecting, attempts := s.attempts + 1 }

/-- Sample target file used by concrete witnesses. -/
def sampleTargetFile : JsFile :=
  { name := "doc.txt", type := "text/plain", bytes := [104, 105] }

/-- Sample carrier image used by concrete witnesses. -/
def sampleCarrierFile : JsFile :=
  { name := "carrier.png", type := "image/png", bytes := [137, 80, 78, 71] }

/-- Three concrete queued records used by the sync-pass witness. -/
def queuedJobA : QueuedJobRecord :=
  { id := "job-a", createdAt := "t1", targetFiles := [normalizeFile sampleTargetFile],
    carrierImage := some (normalizeFile sampleCarrierFile), options := {} }

/-- Second concrete queued record (the one whose submission fails). -/
def queuedJobB : QueuedJobRecord :=
  { id := "job-b", createdAt := "t2", targetFiles := [normalizeFile sampleTargetFile],
    carrierImage := some (normalizeFile sampleCarrierFile), options := {} }

/-- Third concrete queued record. -/
def queuedJobC : QueuedJobRecord :=
  { id := "job-c", createdAt := "t3", targetFiles := [normalizeFile sampleTargetFile],
    carrierImage := some (normalizeFile sampleCarrierFile), options := {} }

/-- Submission oracle for the witness: the second record fails, the others
succeed. -/
def sampleSubmit : QueuedJobRecord → Bool :=
  fun r => r.id != "job-b"

/-- Unfolding of the synchronizer loop: starting from store contents `acc`
and count `n`, processing `jobs` removes from the store exactly the ids that
reach submission and succeed, and adds their number to the count. -/
theorem foldl_processQueuedJob (submit : QueuedJobRecord → Bool)
    (jobs : List QueuedJobRecord) (acc : List QueuedJobRecord) (n : Nat) :
    jobs.foldl (processQueuedJob submit) (acc, n) =
      (acc.filter (fun r => !((syncedIds submit jobs).contains r.id)),
       n + (syncedIds submit jobs).length) := by
  induction jobs generalizing acc n with
  | nil => simp [syncedIds]
  | cons j rest ih =>
    rw [List.foldl_cons]
    cases hc : j.carrierImage with
    | none =>
      simp only [processQueuedJob, hc]
      rw [ih]
      simp [syncedIds, hc]
    | some c =>
      cases hs : submit j with
      | false =>
        simp only [processQueuedJob, hc]
        rw [if_neg (by simp [hs])]
        rw [ih]
        simp [syncedIds, hc, hs]
      | true =>
        simp only [processQueuedJob, hc]
        rw [if_pos hs]
        rw [ih]
        have hsync : syncedIds submit (j :: rest) = j.id :: syncedIds submit rest := by
          simp [syncedIds, hc, hs]
        rw [hsync]
        simp only [Prod.mk.injEq]
        constructor
        · rw [List.filter_filter]
          refine List.filter_congr ?_
          intro r _
          by_cases h : r.id = j.id <;> simp [h, List.contains_cons]
        · simp only [List.length_cons]
          omega

/-- Rebuilding a normalized file restores the original file: same name, same
MIME type, identical bytes. -/
theorem rebuildFile_normalizeFile (f : JsFile) : rebuildFile (normalizeFile f) = f := by
  cases f
  rfl

/-- C2: one pass of the queue synchronizer over a queue whose records all
reach direct submission (carrier present, ids unique in the store) removes
exactly the records whose submission succeeded, retains every record whose
submission failed, and reports a synced count equal to the number of
successes. -/
theorem c2_sync_pass_isolation (submit : QueuedJobRecord → Bool)
    (queue : List QueuedJobRecord)
    (hids : (queue.map (fun r => r.id)).Nodup)
    (hcarrier : ∀ r ∈ queue, r.carrierImage.isSome = true) :
    (syncOfflineQueue submit queue).1 = queue.filter (fun r => !submit r)
    ∧ (syncOfflineQueue submit queue).2 = (queue.filter (fun r => submit r)).length := by
  unfold syncOfflineQueue
  cases hq : queue.isEmpty with
  | true =>
    rw [List.isEmpty_iff] at hq
    subst hq
    simp
  | false =>
    rw [if_neg (by simp [hq])]
    rw [foldl_processQueuedJob]
    have key : ∀ r ∈ queue, ((syncedIds submit queue).contains r.id) = submit r := by
      intro r hr
      cases hs : submit r with
      | true =>
        have hmem : r.id ∈ syncedIds submit queue := by
          refine List.mem_map.mpr ⟨r, List.mem_filter.mpr ⟨hr, ?_⟩, rfl⟩
          simp [hcarrier r hr, hs]
        simpa using hmem
      | false =>
        by_contra hcon
        have hmem : r.id ∈ syncedIds submit queue := by
          have hb : (syncedIds submit queue).contains r.id = true := by
            simpa using hcon
          simpa using hb
        obtain ⟨j, hj, hjid⟩ := List.mem_map.mp hmem
        obtain ⟨hjq, hjcond⟩ := List.mem_filter.mp hj
        have hjr : j = r := List.inj_on_of_nodup_map hids hjq hr hjid
        subst hjr
        simp [hs] at hjcond
    constructor
    · refine List.filter_congr ?_
      intro r hr
      rw [key r hr]
    · have hlen : (syncedIds submit queue).length =
          (queue.filter (fun j => j.carrierImage.isSome && submit j)).length := by
        simp [syncedIds]
      rw [hlen]
      have heq : queue.filter (fun j => j.carrierImage.isSome && submit j) =
          queue.filter (fun j => submit j) := by
        refine List.filter_congr ?_
        intro r hr
        simp [hcarrier r hr]
      simp [heq]

/-- Witness for C2, the concrete instance of the claim: three queued records
where the second fails submission and the first and third succeed; after one
pass the queue contains only the second record and the synced count is 2. -/
theorem c2_sync_pass_isolation_witness :
    (syncOfflineQueue sampleSubmit [queuedJobA, queuedJobB, queuedJobC]).1 = [queuedJobB]
    ∧ (syncOfflineQueue sampleSubmit [queuedJobA, queuedJobB, queuedJobC]).2 = 2 := by
  have h := c2_sync_pass_isolation sampleSubmit [queuedJobA, queuedJobB, queuedJobC]
    (by decide) (by decide)
  exact ⟨h.1.trans (by decide), h.2.trans (by decide)⟩

/-- C4: enqueue followed by materialize is the identity: rebuilding every
stored payload of the committed record yields files byte-identical to the
originals with the same names and MIME types, and the stored options object
is the input options object. -/
theorem c4_queue_roundtrip (id createdAt : String) (targetFiles : List JsFile)
    (carrierImage : JsFile) (options : SubmitOptions) (h : targetFiles ≠ []) :
    (enqueueEncapsulationJob id createdAt targetFiles (some carrierImage)
        (some options)).targetFiles.map rebuildFile = targetFiles
    ∧ (enqueueEncapsulationJob id createdAt targetFiles (some carrierImage)
        (some options)).carrierImage.map rebuildFile = some carrierImage
    ∧ (enqueueEncapsulationJob id createdAt targetFiles (some carrierImage)
        (some options)).options = options := by
  refine ⟨?_, ?_, rfl⟩
  · simp [enqueueEncapsulationJob, List.map_map, Function.comp_def, rebuildFile_normalizeFile]
  · simp [enqueueEncapsulationJob, rebuildFile_normalizeFile]

/-- Witness for C4 at a concrete job: one target file, a carrier image and an
options object round-trip unchanged through the queue. -/
theorem c4_queue_roundtrip_witness :
    (enqueueEncapsulationJob "q-1" "t0" [sampleTargetFile] (some sampleCarrierFile)
        (some {})).targetFiles.map rebuildFile = [sampleTargetFile]
    ∧ (enqueueEncapsulationJob "q-1" "t0" [sampleTargetFile] (some sampleCarrierFile)
        (some {})).carrierImage.map rebuildFile = some sampleCarrierFile
    ∧ (enqueueEncapsulationJob "q-1" "t0" [sampleTargetFile] (some sampleCarrierFile)
        (some {})).options = {} :=
  c4_queue_roundtrip "q-1" "t0" [sampleTargetFile] sampleCarrierFile {} (by decide)

/-- C1: the connectivity mode controller obeys the four transition rules: a
user toggle flips the mode and unconditionally clears `autoOffline`; a
reachability-false signal while the mode is online forces the mode offline
with `autoOffline` set; a reachability-true signal while `autoOffline` is set
restores the online mode and clears the flag; and a reachability-true signal
while the user chose offline (`autoOffline` clear) never changes the mode. -/
theorem c1_mode_controller_transitions (s : DashboardState) :
    ((toggleMode s).systemMode = s.systemMode.flip ∧ (toggleMode s).autoOffline = false)
    ∧ (∀ navigatorOnLine probeOk : Bool,
        (navigatorOnLine = false ∨ probeOk = false) → s.systemMode = .online →
        checkConnectivity navigatorOnLine probeOk s =
          { systemMode := .offline, autoOffline := true, backendReachable := false })
    ∧ (s.autoOffline = true →
        checkConnectivity true true s =
          { systemMode := .online, autoOffline := false, backendReachable := true })
    ∧ (s.systemMode = .offline → s.autoOffline = false →
        (checkConnectivity true true s).systemMode = .offline) := by
  obtain ⟨m, a, r⟩ := s
  cases m <;> cases a <;> cases r <;> decide

/-- Witness for C1 at concrete states: the system forced offline by an
unreachable backend, auto-recovered on reachability, and a user-chosen
offline state untouched by reachability. -/
theorem c1_mode_controller_transitions_witness :
    checkConnectivity false true ⟨.online, false, true⟩ = ⟨.offline, true, false⟩
    ∧ checkConnectivity true true ⟨.offline, true, false⟩ = ⟨.online, false, true⟩
    ∧ (checkConnectivity true true ⟨.offline, false, true⟩).systemMode = .offline :=
  ⟨(c1_mode_controller_transitions ⟨.online, false, true⟩).2.1 false true (Or.inl rfl) rfl,
   (c1_mode_controller_transitions ⟨.offline, true, false⟩).2.2.1 rfl,
   (c1_mode_controller_transitions ⟨.offline, false, true⟩).2.2.2 rfl rfl⟩

/-- C10: calling `subscribeToJob` with no socket, or with a null or undefined
job id, changes nothing and returns a no-op unsubscribe: no handler is
registered, no message is emitted, and nothing is thrown (the embedding is a
total function). -/
theorem c10_subscribe_noop :
    (∀ jobId : Option String, subscribeToJob none jobId = (none, false))
    ∧ (∀ s : Socket, subscribeToJob (some s) none = (some s, false)) :=
  ⟨fun jobId => by cases jobId <;> rfl, fun s => rfl⟩

/-- Invariant of the single-flight guard: the number of in-flight passes is 1
when the flag is set and 0 when it is clear. -/
theorem syncGuard_active_inv (events : List SyncRequest) :
    (runSyncRequests events).activePasses =
      if (runSyncRequests events).isSyncingQueue then 1 else 0 := by
  suffices h : ∀ (es : List SyncRequest) (s : SyncGuard),
      s.activePasses = (if s.isSyncingQueue then 1 else 0) →
      (es.foldl syncGuardStep s).activePasses =
        if (es.foldl syncGuardStep s).isSyncingQueue then 1 else 0 by
    exact h events initSyncGuard rfl
  intro es
  induction es with
  | nil => intro s hs; simpa using hs
  | cons e rest ih =>
    intro s hs
    rw [List.foldl_cons]
    refine ih _ ?_
    cases e with
    | trigger =>
      cases h : s.isSyncingQueue <;> simp [syncGuardStep, h] <;> simp [h] at hs <;> simp [hs]
    | finish =>
      cases h : s.isSyncingQueue <;> simp [syncGuardStep, h] <;> simp [h] at hs <;> simp [hs]

/-- C6: the queue synchronizer is single-flight: in every interleaving of
sync triggers and pass completions, at most one pass is ever in flight, and a
trigger arriving while a pass is in flight leaves the state unchanged (it is
a no-op). -/
theorem c6_single_flight (events : List SyncRequest) :
    (runSyncRequests events).activePasses ≤ 1
    ∧ ((runSyncRequests events).isSyncingQueue = true →
        syncGuardStep (runSyncRequests events) .trigger = runSyncRequests events) := by
  constructor
  · rw [syncGuard_active_inv]
    split <;> omega
  · intro h
    simp [syncGuardStep, h]

/-- Witness for C6: after two triggers the pass started by the first is in
flight, and the second trigger was a no-op. -/
theorem c6_single_flight_witness :
    (runSyncRequests [.trigger, .trigger]).activePasses ≤ 1
    ∧ syncGuardStep (runSyncRequests [.trigger, .trigger]) .trigger =
        runSyncRequests [.trigger, .trigger] :=
  ⟨(c6_single_flight [.trigger, .trigger]).1,
   (c6_single_flight [.trigger, .trigger]).2 (by decide)⟩

/-- Emission accounting of the event layer: running a sequence of transport
events adds to the emissions of a job exactly its pending once-connect
bindings — once, when the sequence contains a `connect` event — and nothing
otherwise. -/
theorem runEvents_emitted_count (events : List SockEvent) (s : Socket) (j : String) :
    ((runEvents s events).emitted.count j) =
      s.emitted.count j +
        (if SockEvent.connect ∈ events then s.onceConnect.count j else 0) := by
  induction events generalizing s with
  | nil => simp [runEvents]
  | cons e rest ih =>
    have hstep : runEvents s (e :: rest) = runEvents (socketStep s e) rest := by
      simp [runEvents]
    rw [hstep]
    cases e with
    | connect =>
      rw [ih]
      simp [socketStep, List.count_append]
    | disconnect =>
      rw [ih]
      have : SockEvent.connect ∈ SockEvent.disconnect :: rest ↔ SockEvent.connect ∈ rest := by
        simp
      rw [socketStep]
      simp [this]
    | connectError =>
      rw [ih]
      have : SockEvent.connect ∈ SockEvent.connectError :: rest ↔ SockEvent.connect ∈ rest := by
        simp
      rw [socketStep]
      simp [this]

/-- C3: subscribing to a job on the freshly constructed (not yet connected)
channel produces exactly one `subscribe_job` emission when the subsequent
event sequence contains a successful connect, and zero before any connect —
never zero once connected, and never a duplicate across disconnects,
connection errors, or further reconnects. -/
theorem c3_subscribe_before_connect (j : String) (events : List SockEvent)
    (hj : j ≠ "") :
    countSubscribeEmissions (subscribeToJob (some initSocket) (some j)).1 events j =
      if SockEvent.connect ∈ events then 1 else 0 := by
  have hsub : (subscribeToJob (some initSocket) (some j)).1 =
      some { connected := false, onceConnect := [j], handlers := [j], emitted := [] } := by
    simp [subscribeToJob, hj, initSocket]
  rw [hsub]
  show (runEvents _ events).emitted.count j = _
  rw [runEvents_emitted_count]
  simp

/-- Witness for C3: one job subscribed before connect, a failed attempt and a
disconnect-reconnect cycle around the first connect still yield exactly one
emission. -/
theorem c3_subscribe_before_connect_witness :
    countSubscribeEmissions (subscribeToJob (some initSocket) (some "job-1")).1
      [.connectError, .connect, .disconnect, .connect] "job-1" = 1 :=
  (c3_subscribe_before_connect "job-1" [.connectError, .connect, .disconnect, .connect]
      (by decide)).trans (by decide)

/-- C9: a submission with an empty target list, a missing carrier image, or
an empty passphrase is rejected synchronously as a validation error — the
outcome is neither an enqueue nor a network submission, so the queue and the
backend are never reached. -/
theorem c9_validation_rejects (id createdAt : String) (targetFiles : List JsFile)
    (carrierImage : Option JsFile) (passphrase : String) (options : SubmitOptions)
    (isOfflineMode : Bool)
    (h : targetFiles = [] ∨ carrierImage = none ∨ passphrase = "") :
    (handleSubmit id createdAt targetFiles carrierImage passphrase options
        isOfflineMode).isValidationError = true
    ∧ (∀ record, handleSubmit id createdAt targetFiles carrierImage passphrase options
        isOfflineMode ≠ .queued record)
    ∧ (∀ formData, handleSubmit id createdAt targetFiles carrierImage passphrase options
        isOfflineMode ≠ .submitted formData) := by
  have hval : (handleSubmit id createdAt targetFiles carrierImage passphrase options
      isOfflineMode).isValidationError = true := by
    rcases h with h | h | h
    · subst h
      simp [handleSubmit, SubmitOutcome.isValidationError]
    · subst h
      cases htf : targetFiles.isEmpty <;>
        simp [handleSubmit, htf, SubmitOutcome.isValidationError]
    · subst h
      cases htf : targetFiles.isEmpty <;> cases carrierImage <;>
        simp [handleSubmit, htf, SubmitOutcome.isValidationError]
  refine ⟨hval, ?_, ?_⟩
  · intro record hrec
    rw [hrec] at hval
    simp [SubmitOutcome.isValidationError] at hval
  · intro formData hfd
    rw [hfd] at hval
    simp [SubmitOutcome.isValidationError] at hval

/-- Witness for C9 at a concrete invalid submission: no target files. -/
theorem c9_validation_rejects_witness :
    (handleSubmit "id" "t" [] (some sampleCarrierFile) "pw" {} true).isValidationError = true
    ∧ (∀ record, handleSubmit "id" "t" [] (some sampleCarrierFile) "pw" {} true ≠
        .queued record)
    ∧ (∀ formData, handleSubmit "id" "t" [] (some sampleCarrierFile) "pw" {} true ≠
        .submitted formData) :=
  c9_validation_rejects "id" "t" [] (some sampleCarrierFile) "pw" {} true (Or.inl rfl)

/-- A concrete queued record with a null carrier, used to exercise the
synchronizer on an invariant-violating record. -/
def invalidQueuedJob : QueuedJobRecord :=
  { id := "bad-1", createdAt := "t9", targetFiles := [], carrierImage := none, options := {} }

/-- Counterexample to C5 as stated: `enqueueEncapsulationJob` itself enforces
nothing — called with no carrier and an empty target list it commits a record
whose carrier payload is null and whose target-payload sequence is empty
(its IndexedDB `store.add` succeeds for such a record; validation happens
only in the submission facade). -/
theorem c5_counterexample :
    (enqueueEncapsulationJob "bad-1" "t9" [] none none).carrierImage = none
    ∧ (enqueueEncapsulationJob "bad-1" "t9" [] none none).targetFiles = [] := by
  exact ⟨rfl, rfl⟩

/-- C5 (amended): a record committed through the validated submission path
(the facade checks the target list, the carrier and the passphrase before
enqueueing) always has a non-null carrier payload and a non-empty
target-payload sequence; and the synchronizer treats a record with a null
carrier as a failure for that record and never removes it from the queue
(ids unique in the store, as IndexedDB guarantees). -/
theorem c5_invariant_amended :
    (∀ (id createdAt : String) (targetFiles : List JsFile)
        (carrierImage : Option JsFile) (passphrase : String) (options : SubmitOptions)
        (isOfflineMode : Bool) (record : QueuedJobRecord),
        handleSubmit id createdAt targetFiles carrierImage passphrase options
            isOfflineMode = .queued record →
        record.carrierImage.isSome = true ∧ record.targetFiles ≠ [])
    ∧ (∀ (submit : QueuedJobRecord → Bool) (queue : List QueuedJobRecord)
        (r : QueuedJobRecord),
        (queue.map (fun x => x.id)).Nodup → r ∈ queue → r.carrierImage = none →
        r ∈ (syncOfflineQueue submit queue).1) := by
  constructor
  · intro id createdAt targetFiles carrierImage passphrase options isOfflineMode record h
    cases htf : targetFiles.isEmpty with
    | true => simp [handleSubmit, htf] at h
    | false =>
      cases carrierImage with
      | none => simp [handleSubmit, htf] at h
      | some carrier =>
        by_cases hp : passphrase = ""
        · simp [handleSubmit, htf, hp] at h
        · cases hoff : isOfflineMode with
          | false => simp [handleSubmit, htf, hp, hoff] at h
          | true =>
            simp [handleSubmit, htf, hp, hoff] at h
            subst h
            refine ⟨rfl, ?_⟩
            intro hnil
            have hlen := congrArg List.length hnil
            simp [enqueueEncapsulationJob] at hlen
            rw [hlen] at htf
            simp at htf
  · intro submit queue r hids hr hnone
    have hne : queue.isEmpty = false := by
      cases queue with
      | nil => cases hr
      | cons a l => rfl
    unfold syncOfflineQueue
    rw [if_neg (by simp [hne])]
    rw [foldl_processQueuedJob]
    refine List.mem_filter.mpr ⟨hr, ?_⟩
    have : r.id ∉ syncedIds submit queue := by
      intro hmem
      obtain ⟨j, hj, hjid⟩ := List.mem_map.mp hmem
      obtain ⟨hjq, hjcond⟩ := List.mem_filter.mp hj
      have hjr : j = r := List.inj_on_of_nodup_map hids hjq hr hjid
      subst hjr
      simp [hnone] at hjcond
    simpa using this

/-- Witness for C5 (amended): a validated offline submission commits a record
satisfying the invariant, and a null-carrier record survives a sync pass in
which every submission would succeed. -/
theorem c5_invariant_amended_witness :
    ((enqueueEncapsulationJob "q-2" "t5" [sampleTargetFile] (some sampleCarrierFile)
        (some {})).carrierImage.isSome = true
      ∧ (enqueueEncapsulationJob "q-2" "t5" [sampleTargetFile] (some sampleCarrierFile)
        (some {})).targetFiles ≠ [])
    ∧ invalidQueuedJob ∈ (syncOfflineQueue (fun _ => true) [invalidQueuedJob]).1 :=
  ⟨c5_invariant_amended.1 "q-2" "t5" [sampleTargetFile] (some sampleCarrierFile) "pw" {}
      true _ (by decide),
   c5_invariant_amended.2 (fun _ => true) [invalidQueuedJob] invalidQueuedJob
      (by decide) (by decide) rfl⟩

/-- A fully populated, truthy options object for the C8 witness. -/
def sampleOptions : SubmitOptions :=
  { compression_mode := some "lossless", noise_level := some 55,
    encryption := some "chacha20-poly1305", hashing := some "blake2s",
    passphrase := some "pw", key_iterations := some 5000,
    polytope_type := some "dodecahedron", zstd_level := some 9,
    stego_layers := some 3, stego_dynamic := some false,
    stego_adaptive := some true, poly_backend := some "capsule" }

/-- Counterexample to C8 as stated: a present field is not always forwarded
verbatim.  The input carries the valid slider value `noise_level = 0`
(the slider minimum is 0), but `options.noise_level || 30` treats `0` as
falsy and the JSON sent to the backend carries `30` instead. -/
theorem c8_counterexample :
    (buildEncapsulationOptions { noise_level := some 0 }).noise_level = 30
    ∧ ({ noise_level := some 0 : SubmitOptions }).noise_level = some 0 :=
  ⟨rfl, rfl⟩

/-- C8 (amended): the options JSON sent to `/api/encapsulate` forwards each
present truthy field verbatim (non-empty strings, non-zero numbers, booleans
whenever present, the passphrase always), and fills each absent or falsy
field with its stated default: compression_mode high-ratio, noise_level 30,
encryption aes-256-gcm, hashing sha-256, key_iterations 100000, polytope_type
cube, zstd_level 22, stego_layers 2, stego_dynamic and stego_adaptive true,
poly_backend latte. -/
theorem c8_options_amended (o : SubmitOptions) :
    ((∀ s, o.compression_mode = some s → s ≠ "" →
        (buildEncapsulationOptions o).compression_mode = s)
      ∧ ((o.compression_mode = none ∨ o.compression_mode = some "") →
        (buildEncapsulationOptions o).compression_mode = "high-ratio"))
    ∧ ((∀ n, o.noise_level = some n → n ≠ 0 →
        (buildEncapsulationOptions o).noise_level = n)
      ∧ ((o.noise_level = none ∨ o.noise_level = some 0) →
        (buildEncapsulationOptions o).noise_level = 30))
    ∧ ((∀ s, o.encryption = some s → s ≠ "" →
        (buildEncapsulationOptions o).encryption = s)
      ∧ ((o.encryption = none ∨ o.encryption = some "") →
        (buildEncapsulationOptions o).encryption = "aes-256-gcm"))
    ∧ ((∀ s, o.hashing = some s → s ≠ "" →
        (buildEncapsulationOptions o).hashing = s)
      ∧ ((o.hashing = none ∨ o.hashing = some "") →
        (buildEncapsulationOptions o).hashing = "sha-256"))
    ∧ ((buildEncapsulationOptions o).passphrase = o.passphrase)
    ∧ ((∀ n, o.key_iterations = some n → n ≠ 0 →
        (buildEncapsulationOptions o).key_iterations = n)
      ∧ ((o.key_iterations = none ∨ o.key_iterations = some 0) →
        (buildEncapsulationOptions o).key_iterations = 100000))
    ∧ ((∀ s, o.polytope_type = some s → s ≠ "" →
        (buildEncapsulationOptions o).polytope_type = s)
      ∧ ((o.polytope_type = none ∨ o.polytope_type = some "") →
        (buildEncapsulationOptions o).polytope_type = "cube"))
    ∧ ((∀ n, o.zstd_level = some n → n ≠ 0 →
        (buildEncapsulationOptions o).zstd_level = n)
      ∧ ((o.zstd_level = none ∨ o.zstd_level = some 0) →
        (buildEncapsulationOptions o).zstd_level = 22))
    ∧ ((∀ n, o.stego_layers = some n → n ≠ 0 →
        (buildEncapsulationOptions o).stego_layers = n)
      ∧ ((o.stego_layers = none ∨ o.stego_layers = some 0) →
        (buildEncapsulationOptions o).stego_layers = 2))
    ∧ ((∀ b, o.stego_dynamic = some b →
        (buildEncapsulationOptions o).stego_dynamic = b)
      ∧ (o.stego_dynamic = none → (buildEncapsulationOptions o).stego_dynamic = true))
    ∧ ((∀ b, o.stego_adaptive = some b →
        (buildEncapsulationOptions o).stego_adaptive = b)
      ∧ (o.stego_adaptive = none → (buildEncapsulationOptions o).stego_adaptive = true))
    ∧ ((∀ s, o.poly_backend = some s → s ≠ "" →
        (buildEncapsulationOptions o).poly_backend = s)
      ∧ ((o.poly_backend = none ∨ o.poly_backend = some "") →
        (buildEncapsulationOptions o).poly_backend = "latte")) := by
  refine ⟨⟨?_, ?_⟩, ⟨?_, ?_⟩, ⟨?_, ?_⟩, ⟨?_, ?_⟩, rfl, ⟨?_, ?_⟩, ⟨?_, ?_⟩, ⟨?_, ?_⟩,
    ⟨?_, ?_⟩, ⟨?_, ?_⟩, ⟨?_, ?_⟩, ⟨?_, ?_⟩⟩ <;>
  first
    | (intro v hv hne
       simp [buildEncapsulationOptions, jsOrString, jsOrInt, hv, hne])
    | (intro hf
       rcases hf with hf | hf <;>
         simp [buildEncapsulationOptions, jsOrString, jsOrInt, hf])
    | (intro v hv
       simp [buildEncapsulationOptions, jsNotFalse, hv])
    | (intro hv
       simp [buildEncapsulationOptions, jsNotFalse, hv])

/-- Witness for C8 (amended): truthy fields of a fully populated options
object pass through verbatim, and absent fields of the empty options object
receive the stated defaults. -/
theorem c8_options_amended_witness :
    (buildEncapsulationOptions sampleOptions).compression_mode = "lossless"
    ∧ (buildEncapsulationOptions sampleOptions).noise_level = 55
    ∧ (buildEncapsulationOptions sampleOptions).stego_dynamic = false
    ∧ (buildEncapsulationOptions {}).compression_mode = "high-ratio"
    ∧ (buildEncapsulationOptions {}).noise_level = 30
    ∧ (buildEncapsulationOptions {}).stego_dynamic = true :=
  ⟨(c8_options_amended sampleOptions).1.1 "lossless" rfl (by decide),
   (c8_options_amended sampleOptions).2.1.1 55 rfl (by decide),
   ((c8_options_amended sampleOptions).2.2.2.2.2.2.2.2.2.1).1 false rfl,
   (c8_options_amended {}).1.2 (Or.inl rfl),
   (c8_options_amended {}).2.1.2 (Or.inl rfl),
   ((c8_options_amended {}).2.2.2.2.2.2.2.2.2.1).2 rfl⟩

/-- The failed channel state is a fixed point of the attempt-failure step:
once `reconnect_failed` has fired, no event changes the channel again. -/
theorem onConnectError_failed_fixed (s : ChannelState)
    (h : s.connectionState = .failed) : onConnectError s = s := by
  simp [onConnectError, h]

/-- Iterating the attempt-failure step on the failed terminal state never
leaves it. -/
theorem onConnectError_iterate_failed (m : Nat) :
    onConnectError^[m] (⟨.failed, MAX_RECONNECT_ATTEMPTS⟩ : ChannelState) =
      ⟨.failed, MAX_RECONNECT_ATTEMPTS⟩ := by
  induction m with
  | zero => rfl
  | succ k ih =>
    rw [Function.iterate_succ_apply', ih]
    exact onConnectError_failed_fixed _ rfl

/-- Counterexample to C7 as stated: with the configured random jitter
(randomizationFactor 0.4), the realized reconnection delay is not
non-decreasing in the attempt number.  With the draw 99/100 the delay before
attempt 1 is 1396 ms, while with the draw 4/5 the delay before attempt 2 is
1360 ms — a strictly smaller delay for a later attempt, both draws being
valid `Math.random()` values in `[0, 1)`. -/
theorem c7_counterexample :
    backoffDuration 1 (4 / 5) < backoffDuration 0 (99 / 100)
    ∧ (0 ≤ (99 / 100 : ℚ) ∧ (99 / 100 : ℚ) < 1)
    ∧ (0 ≤ (4 / 5 : ℚ) ∧ (4 / 5 : ℚ) < 1) := by
  refine ⟨?_, by norm_num, by norm_num⟩
  norm_num [backoffDuration, BASE_RECONNECT_DELAY_MS, MAX_RECONNECT_DELAY_MS,
    RECONNECT_JITTER]

/-- C7 (amended): the realized reconnection delay never exceeds the
configured 10000 ms ceiling; the jitter-free backoff delay is non-decreasing
in the attempt number up to that ceiling; the attempt counter never exceeds
the configured cap of 10; once the cap is exhausted the channel is in the
`failed` state with no further attempts, permanently. -/
theorem c7_backoff_amended :
    (∀ (attempts : Nat) (rand : ℚ),
        backoffDuration attempts rand ≤ MAX_RECONNECT_DELAY_MS)
    ∧ (∀ m n : Nat, m ≤ n → baseReconnectDelay m ≤ baseReconnectDelay n)
    ∧ (∀ n : Nat, (onConnectError^[n] initChannel).attempts ≤ MAX_RECONNECT_ATTEMPTS)
    ∧ (∀ n : Nat, MAX_RECONNECT_ATTEMPTS + 1 ≤ n →
        onConnectError^[n] initChannel =
          { connectionState := .failed, attempts := MAX_RECONNECT_ATTEMPTS })
    ∧ (∀ s : ChannelState, s.connectionState = .failed → onConnectError s = s) := by
  refine ⟨?_, ?_, ?_, ?_, onConnectError_failed_fixed⟩
  · intro attempts rand
    exact min_le_right _ _
  · intro m n h
    unfold baseReconnectDelay
    refine min_le_min ?_ le_rfl
    have h2 : (2 : ℚ) ^ m ≤ 2 ^ n := pow_le_pow_right₀ (by norm_num) h
    exact mul_le_mul_of_nonneg_left h2 (by norm_num [BASE_RECONNECT_DELAY_MS])
  · intro n
    induction n with
    | zero => decide
    | succ k ih =>
      rw [Function.iterate_succ_apply']
      generalize hs : onConnectError^[k] initChannel = s at ih
      by_cases hf : s.connectionState = .failed
      · simpa [onConnectError, hf] using ih
      · by_cases hm : MAX_RECONNECT_ATTEMPTS ≤ s.attempts
        · simpa [onConnectError, hf, hm] using ih
        · simp only [onConnectError, if_neg hf, if_neg hm]
          omega
  · have h11 : onConnectError^[MAX_RECONNECT_ATTEMPTS + 1] initChannel =
        { connectionState := .failed, attempts := MAX_RECONNECT_ATTEMPTS } := by
      decide
    intro n hn
    have hsplit : n = (n - (MAX_RECONNECT_ATTEMPTS + 1)) + (MAX_RECONNECT_ATTEMPTS + 1) := by
      omega
    rw [hsplit, Function.iterate_add_apply, h11, onConnectError_iterate_failed]

/-- Witness for C7 (amended) at concrete inputs: a mid-range draw stays under
the ceiling, the jitter-free delay grows from attempt 3 to attempt 6, the
counter is within the cap after 4 failures, and 12 failures land and stay in
the failed state. -/
theorem c7_backoff_amended_witness :
    backoffDuration 3 (1 / 2) ≤ MAX_RECONNECT_DELAY_MS
    ∧ baseReconnectDelay 2 ≤ baseReconnectDelay 5
    ∧ (onConnectError^[4] initChannel).attempts ≤ MAX_RECONNECT_ATTEMPTS
    ∧ onConnectError^[12] initChannel =
        { connectionState := .failed, attempts := MAX_RECONNECT_ATTEMPTS }
    ∧ onConnectError { connectionState := .failed, attempts := MAX_RECONNECT_ATTEMPTS } =
        { connectionState := .failed, attempts := MAX_RECONNECT_ATTEMPTS } :=
  ⟨c7_backoff_amended.1 3 (1 / 2),
   c7_backoff_amended.2.1 2 5 (by omega),
   c7_backoff_amended.2.2.1 4,
   c7_backoff_amended.2.2.2.1 12 (by decide),
   c7_backoff_amended.2.2.2.2 _ rfl⟩

end Forge
